import Mathlib

/-!
# Camera capture and emotion display controller (`static/js/camera.js`)

A shallow embedding of the page script.  The script has two module variables
(`stream`, `intervalId`), touches five DOM elements, and calls five host
facilities (`getUserMedia`, `setInterval`/`clearInterval`, `fetch`, `alert`,
`MediaStreamTrack.stop`).  Every `async` function is cut at its `await`s into
the segments that the event loop runs atomically; the event loop itself is the
function `step`, and an interleaving is a list of events folded by `run`.

Modelling conventions:
* object references (`MediaStream`) are indices into a heap of granted streams;
* `setInterval` returns a fresh positive integer handle, as browsers do;
* the canvas content is not modelled: the data URL of a frame is supplied by
  the environment together with the timer event;
* an exception is a value of `JSError`; a segment returns `Except JSError State`,
  where `.error` means that the exception escaped the handler.
-/

namespace Camera

/-! ## JavaScript values -/

/-- Exceptions and rejection reasons. -/
inductive JSError where
  | typeError (msg : String)
  | rejected (reason : String)
  deriving DecidableEq

/-- A value read from a property of a parsed JSON document.  A number carries
whether it is zero and its `ToString` rendering; an array or object carries its
`ToString` rendering, or `none` when the conversion throws (a parsed object
whose own `toString` and `valueOf` members are not callable). -/
inductive JSVal where
  | undefined
  | null
  | bool (b : Bool)
  | num (isZero : Bool) (shown : String)
  | str (s : String)
  | object (shown : Option String)
  deriving DecidableEq

/-- The root of a parsed JSON document: `null`, an object with its members in
document order, or any other value (string, number, boolean, array), on which
reading the property `emotion` yields `undefined`. -/
inductive Body where
  | null
  | object (members : List (String × JSVal))
  | other
  deriving DecidableEq

/-- JavaScript `ToBoolean`. -/
def JSVal.truthy : JSVal → Bool
  | .undefined => false
  | .null => false
  | .bool b => b
  | .num isZero _ => !isZero
  | .str s => s != ""
  | .object _ => true

/-- The conversion applied by the `textContent` setter: `null` and `undefined`
clear the text, every other value goes through JavaScript `ToString`, which
can throw on an object. -/
def JSVal.toDOMString : JSVal → Except JSError String
  | .undefined => .ok ""
  | .null => .ok ""
  | .bool b => .ok (if b then "true" else "false")
  | .num _ shown => .ok shown
  | .str s => .ok s
  | .object (some shown) => .ok shown
  | .object none => .error (.typeError "Cannot convert object to primitive value")

/-- The operator `a || b`. -/
def JSVal.or (a b : JSVal) : JSVal :=
  if a.truthy then a else b

/-- Member lookup in a parsed object: with duplicate keys the last one wins. -/
def lookupMember (key : String) : List (String × JSVal) → Option JSVal
  | [] => none
  | (k, v) :: rest =>
    match lookupMember key rest with
    | some w => some w
    | none => if k = key then some v else none

/-- The expression `result.emotion`-style property read `b.key`. -/
def Body.getProp (b : Body) (key : String) : Except JSError JSVal :=
  match b with
  | .null => .error (.typeError "Cannot read properties of null")
  | .object members => .ok ((lookupMember key members).getD .undefined)
  | .other => .ok .undefined

/-! ## Host objects -/

/-- A media stream track; `live = false` is `readyState == "ended"`. -/
structure MediaStreamTrack where
  live : Bool
  deriving DecidableEq

/-- A granted media stream. -/
structure MediaStream where
  tracks : List MediaStreamTrack
  deriving DecidableEq

/-- The functions of the script that are passed to `setInterval`. -/
inductive Callback where
  | captureAndSend
  deriving DecidableEq

/-- A repeating timer that has been registered and not cancelled. -/
structure IntervalTimer where
  id : Nat
  callback : Callback
  period : Nat
  deriving DecidableEq

/-- A request handed to `fetch`. -/
structure HttpRequest where
  url : String
  method : String
  contentType : String
  image : String
  deriving DecidableEq

/-- Where a tick that has called `fetch` is suspended. -/
inductive Phase where
  | fetching
  | parsing
  deriving DecidableEq

/-- The module variables, the DOM properties the script writes, and the host
bookkeeping. -/
structure State where
  /-- Module variable `stream` (a heap reference, `none` is `null`). -/
  stream : Option Nat
  /-- Module variable `intervalId`. -/
  intervalId : Option Nat
  /-- DOM property `video.srcObject`. -/
  videoSrcObject : Option Nat
  /-- DOM property `startBtn.disabled`. -/
  startDisabled : Bool
  /-- DOM property `stopBtn.disabled`. -/
  stopDisabled : Bool
  /-- DOM property `emotionSpan.textContent`. -/
  emotionText : String
  /-- Heap of the streams granted so far. -/
  streams : List MediaStream
  /-- Registered, uncancelled interval timers. -/
  timers : List IntervalTimer
  /-- Number of `setInterval` calls so far. -/
  timersCreated : Nat
  /-- Camera requests awaiting the user or the device. -/
  cameraPending : List Nat
  /-- Number of `getUserMedia` calls so far. -/
  cameraRequests : Nat
  /-- Ticks suspended at `await fetch(...)` or `await res.json()`. -/
  inflight : List (Nat × Phase)
  /-- Every request handed to `fetch`, oldest first. -/
  fetches : List HttpRequest
  /-- Every message passed to `alert`, oldest first. -/
  alerts : List String
  deriving DecidableEq

/-- The call `navigator.mediaDevices.getUserMedia({ video: true })`: one more
request, pending until it is granted or denied. -/
def getUserMedia (s : State) : State :=
  { s with
    cameraRequests := s.cameraRequests + 1
    cameraPending := s.cameraPending ++ [s.cameraRequests + 1] }

/-- The call `setInterval(callback, period)`: returns a fresh positive handle. -/
def setInterval (s : State) (callback : Callback) (period : Nat) : Nat × State :=
  (s.timersCreated + 1,
    { s with
      timersCreated := s.timersCreated + 1
      timers := s.timers ++ [⟨s.timersCreated + 1, callback, period⟩] })

/-- The call `clearInterval(id)`. -/
def clearInterval (s : State) (id : Nat) : State :=
  { s with timers := s.timers.filter (fun t => t.id != id) }

/-- The statement `stream.getTracks().forEach(track => track.stop())` on the
stream behind the reference `ref`. -/
def stopTracks (s : State) (ref : Nat) : State :=
  { s with streams := s.streams.modify (fun m => ⟨m.tracks.map (fun _ => ⟨false⟩)⟩) ref }

/-- The call `alert(msg)`. -/
def alert (s : State) (msg : String) : State :=
  { s with alerts := s.alerts ++ [msg] }

/-- The call `fetch(url, options)`: the request leaves and the caller is
suspended under a fresh ticket. -/
def fetch (s : State) (req : HttpRequest) : State :=
  { s with
    fetches := s.fetches ++ [req]
    inflight := s.inflight ++ [(s.fetches.length + 1, .fetching)] }

/-! ## The script -/

/-- Part of `startBtn.onclick` up to the `await`: lines 11-13. -/
def startBtn_onclick (s : State) : Except JSError State :=
  if s.stream.isSome then pure s
  else pure (getUserMedia s)

/-- Part of `startBtn.onclick` after the camera request resolved with the stream
`granted`: lines 13-19. -/
def startBtn_onclick_resolved (s : State) (granted : Nat) : Except JSError State :=
  let s := { s with stream := some granted }
  let s := { s with videoSrcObject := s.stream }
  let s := { s with startDisabled := true }
  let s := { s with stopDisabled := false }
  let s := { s with emotionText := "Đang nhận diện..." }
  let r := setInterval s .captureAndSend 5000
  pure { r.2 with intervalId := some r.1 }

/-- Part of `startBtn.onclick` after the camera request rejected with `err`
(given by its string rendering): the `catch` block, lines 20-22. -/
def startBtn_onclick_rejected (s : State) (err : String) : Except JSError State :=
  pure (alert s ("Không thể truy cập camera: " ++ err))

/-- The handler `stopBtn.onclick`: lines 25-37. -/
def stopBtn_onclick (s : State) : Except JSError State :=
  let s := match s.intervalId with
    | some id => if id != 0 then clearInterval s id else s
    | none => s
  let s := { s with intervalId := none }
  let s := match s.stream with
    | some ref => { stopTracks s ref with stream := none }
    | none => s
  let s := { s with videoSrcObject := none }
  let s := { s with startDisabled := false }
  let s := { s with stopDisabled := true }
  pure { s with emotionText := "Chưa nhận diện" }

/-- Part of `captureAndSend` up to the first `await`: lines 40-49.  The
argument `dataUrl` is what `canvas.toDataURL('image/jpeg')` returns for the
frame just drawn. -/
def captureAndSend (s : State) (dataUrl : String) : Except JSError State :=
  if s.stream.isNone then pure s
  else
    let s := { s with emotionText := "Đang nhận diện..." }
    pure (fetch s ⟨"/analyze", "POST", "application/json", dataUrl⟩)

/-- Part of `captureAndSend` after `await fetch(...)` settled: on rejection the
`catch` block runs, otherwise `res.json()` is called and awaited. -/
def captureAndSend_fetched (s : State) (res : Except JSError Unit) : Except JSError State :=
  tryCatch
    (do
      res
      pure s)
    (fun _ => pure { s with emotionText := "Lỗi kết nối" })

/-- Part of `captureAndSend` after `await res.json()` settled: lines 50-54. -/
def captureAndSend_parsed (s : State) (json : Except JSError Body) : Except JSError State :=
  tryCatch
    (do
      let result ← json
      let emotion ← result.getProp "emotion"
      let text ← (emotion.or (.str "Không nhận diện được")).toDOMString
      pure { s with emotionText := text })
    (fun _ => pure { s with emotionText := "Lỗi kết nối" })

/-! ## The event loop -/

/-- What the environment can do to the page. -/
inductive Event where
  /-- The handler of the start control is invoked. -/
  | startClicked
  /-- The handler of the stop control is invoked. -/
  | stopClicked
  /-- A pending camera request resolves with a new stream of `tracks` live tracks. -/
  | cameraGranted (req : Nat) (tracks : Nat)
  /-- A pending camera request rejects. -/
  | cameraDenied (req : Nat) (err : String)
  /-- A registered interval timer fires. -/
  | timerFired (id : Nat) (dataUrl : String)
  /-- The promise of `fetch` settles. -/
  | fetchSettled (ticket : Nat) (res : Except JSError Unit)
  /-- The promise of `res.json()` settles. -/
  | jsonSettled (ticket : Nat) (json : Except JSError Body)

/-- The state after a segment: an exception that escapes an event handler or
an `async` function is reported by the host and changes nothing further. -/
def settle (s : State) (r : Except JSError State) : State :=
  match r with
  | .ok s' => s'
  | .error _ => s

/-- One turn of the event loop. -/
def step (s : State) : Event → State
  | .startClicked => settle s (startBtn_onclick s)
  | .stopClicked => settle s (stopBtn_onclick s)
  | .cameraGranted req tracks =>
    if req ∈ s.cameraPending then
      let s := { s with
        cameraPending := s.cameraPending.erase req
        streams := s.streams ++ [⟨List.replicate tracks ⟨true⟩⟩] }
      settle s (startBtn_onclick_resolved s (s.streams.length - 1))
    else s
  | .cameraDenied req err =>
    if req ∈ s.cameraPending then
      let s := { s with cameraPending := s.cameraPending.erase req }
      settle s (startBtn_onclick_rejected s err)
    else s
  | .timerFired id dataUrl =>
    match s.timers.find? (fun t => t.id == id) with
    | some ⟨_, .captureAndSend, _⟩ => settle s (captureAndSend s dataUrl)
    | none => s
  | .fetchSettled ticket res =>
    if (ticket, Phase.fetching) ∈ s.inflight then
      let s := { s with inflight := s.inflight.erase (ticket, .fetching) }
      let s := match res with
        | .ok _ => { s with inflight := s.inflight ++ [(ticket, .parsing)] }
        | .error _ => s
      settle s (captureAndSend_fetched s res)
    else s
  | .jsonSettled ticket json =>
    if (ticket, Phase.parsing) ∈ s.inflight then
      let s := { s with inflight := s.inflight.erase (ticket, .parsing) }
      settle s (captureAndSend_parsed s json)
    else s

/-- The state after a sequence of events. -/
def run (s : State) (events : List Event) : State :=
  events.foldl step s

/-- Modelled from the spec: the page markup is not among the sources; it gives
the stop control initially disabled, the start control enabled, no preview
binding and the status text "not yet analyzing".  The two module variables are
null by lines 7-8 of the script. -/
def initial : State :=
  { stream := none
    intervalId := none
    videoSrcObject := none
    startDisabled := false
    stopDisabled := true
    emotionText := "Chưa nhận diện"
    streams := []
    timers := []
    timersCreated := 0
    cameraPending := []
    cameraRequests := 0
    inflight := []
    fetches := []
    alerts := [] }

/-- Number of granted streams that still have a live track. -/
def liveStreams (s : State) : Nat :=
  (s.streams.filter (fun m => m.tracks.any (fun t => t.live))).length

/-- Number of registered, uncancelled repeating triggers. -/
def activeTimers (s : State) : Nat :=
  s.timers.length

/-- The controls and the timer handle agree with the stream handle. -/
def Consistent (s : State) : Prop :=
  (s.startDisabled = true ↔ s.stream ≠ none) ∧
  (s.stopDisabled = false ↔ s.stream ≠ none) ∧
  (s.intervalId ≠ none ↔ s.stream ≠ none)

/-- An idle session whose request has completed after the session was stopped:
start, grant, one tick, stop, and then the answer of the tick arrives. -/
def lateAnswer : List Event :=
  [.startClicked, .cameraGranted 1 1, .timerFired 1 "data:image/jpeg;base64,AA==",
    .stopClicked, .fetchSettled 1 (.ok ()),
    .jsonSettled 1 (.ok (.object [("emotion", .str "happy")]))]

/-- Two invocations of the start handler before the first camera request
resolves, then both requests are granted with one track each. -/
def doubleStart : List Event :=
  [.startClicked, .startClicked, .cameraGranted 1 1, .cameraGranted 2 1]

/-! ## Facts about the event loop -/

/-- A registered timer runs `captureAndSend` when it fires. -/
theorem step_timerFired_registered (s : State) (id : Nat) (dataUrl : String)
    (h : ∃ t ∈ s.timers, t.id = id) :
    step s (.timerFired id dataUrl) = settle s (captureAndSend s dataUrl) := by
  obtain ⟨t, ht, hid⟩ := h
  cases hf : s.timers.find? (fun t => t.id == id) with
  | none =>
    rw [List.find?_eq_none] at hf
    exact absurd (by simpa using hid) (hf t ht)
  | some t' =>
    obtain ⟨i, c, p⟩ := t'
    cases c
    simp [step, hf]

/-- Without a stream handle no timer event changes anything: either the timer
is not registered, or `captureAndSend` returns at its guard. -/
theorem step_timerFired_no_stream (s : State) (id : Nat) (dataUrl : String)
    (h : s.stream = none) : step s (.timerFired id dataUrl) = s := by
  cases hf : s.timers.find? (fun t => t.id == id) with
  | none => simp [step, hf]
  | some t' =>
    obtain ⟨i, c, p⟩ := t'
    cases c
    simp [step, hf, settle, captureAndSend, h, pure, Except.pure]

/-- The last segment of a tick never lets an error escape and writes nothing
but the status text, whatever the answer is. -/
theorem captureAndSend_parsed_total (s : State) (json : Except JSError Body) :
    ∃ text, captureAndSend_parsed s json = .ok { s with emotionText := text } := by
  cases json with
  | error err =>
    exact ⟨"Lỗi kết nối", by
      simp [captureAndSend_parsed, tryCatch, tryCatchThe, MonadExceptOf.tryCatch,
        Except.tryCatch, bind, Except.bind, pure, Except.pure]⟩
  | ok body =>
    cases hg : body.getProp "emotion" with
    | error err =>
      exact ⟨"Lỗi kết nối", by
        simp [captureAndSend_parsed, hg, tryCatch, tryCatchThe, MonadExceptOf.tryCatch,
          Except.tryCatch, bind, Except.bind, pure, Except.pure]⟩
    | ok emotion =>
      cases hc : (emotion.or (.str "Không nhận diện được")).toDOMString with
      | error err =>
        exact ⟨"Lỗi kết nối", by
          simp [captureAndSend_parsed, hg, hc, tryCatch, tryCatchThe, MonadExceptOf.tryCatch,
            Except.tryCatch, bind, Except.bind, pure, Except.pure]⟩
      | ok text =>
        exact ⟨text, by
          simp [captureAndSend_parsed, hg, hc, tryCatch, tryCatchThe, MonadExceptOf.tryCatch,
            Except.tryCatch, bind, Except.bind, pure, Except.pure]⟩

/-- Every turn of the event loop keeps the controls and the timer handle in
agreement with the stream handle. -/
theorem step_consistent (s : State) (e : Event) (h : Consistent s) :
    Consistent (step s e) := by
  obtain ⟨h1, h2, h3⟩ := h
  cases e with
  | startClicked =>
    cases hs : s.stream <;>
    simp_all [Consistent, step, settle, startBtn_onclick, getUserMedia, pure, Except.pure]
  | stopClicked =>
    cases hi : s.intervalId with
    | none =>
      cases hs : s.stream <;>
      simp [Consistent, step, settle, stopBtn_onclick, stopTracks, hi, hs, pure, Except.pure]
    | some id =>
      by_cases h0 : id = 0 <;> cases hs : s.stream <;>
      simp [Consistent, step, settle, stopBtn_onclick, stopTracks, clearInterval, hi, hs, h0,
        pure, Except.pure]
  | cameraGranted req tracks =>
    by_cases hr : req ∈ s.cameraPending
    · simp [Consistent, step, settle, startBtn_onclick_resolved, setInterval, hr, pure,
        Except.pure]
    · simp [step, hr]
      exact ⟨h1, h2, h3⟩
  | cameraDenied req err =>
    by_cases hr : req ∈ s.cameraPending
    · simp [Consistent, step, settle, startBtn_onclick_rejected, alert, hr, pure, Except.pure]
      exact ⟨by simpa using h1, by simpa using h2, by simpa using h3⟩
    · simp [step, hr]
      exact ⟨h1, h2, h3⟩
  | timerFired id dataUrl =>
    cases hf : s.timers.find? (fun t => t.id == id) with
    | none =>
      simp [step, hf]
      exact ⟨h1, h2, h3⟩
    | some t' =>
      obtain ⟨i, c, p⟩ := t'
      cases c
      cases hs : s.stream <;>
      simp_all [Consistent, step, settle, captureAndSend, fetch, pure, Except.pure]
  | fetchSettled ticket res =>
    by_cases hr : (ticket, Phase.fetching) ∈ s.inflight
    · cases res <;>
      simp [Consistent, step, settle, captureAndSend_fetched, hr, tryCatch, tryCatchThe,
        MonadExceptOf.tryCatch, Except.tryCatch, bind, Except.bind, pure, Except.pure] <;>
      exact ⟨by simpa using h1, by simpa using h2, by simpa using h3⟩
    · simp [step, hr]
      exact ⟨h1, h2, h3⟩
  | jsonSettled ticket json =>
    by_cases hr : (ticket, Phase.parsing) ∈ s.inflight
    · obtain ⟨text, ht⟩ := captureAndSend_parsed_total
        { s with inflight := s.inflight.erase (ticket, .parsing) } json
      simp [Consistent, step, settle, hr, ht]
      exact ⟨by simpa using h1, by simpa using h2, by simpa using h3⟩
    · simp [step, hr]
      exact ⟨h1, h2, h3⟩

/-- Agreement of the controls and the timer handle with the stream handle is
kept along every sequence of events. -/
theorem run_consistent (events : List Event) (s : State) (h : Consistent s) :
    Consistent (run s events) := by
  induction events generalizing s with
  | nil => exact h
  | cons e rest ih => exact ih (step s e) (step_consistent s e h)

/-! ## Start -/

/-- What a successful start does in general: from a state with no stream
handle and no pending camera request, a start action issues exactly one camera
request; when that request is granted the stream handle and the preview are the
granted stream, start is disabled, stop is enabled, the status text is the
"analyzing" literal, and one new repeating trigger, for `captureAndSend` with
period 5000, is appended to the registry and stored in the timer handle.  The
registry then holds exactly one trigger only if it held none before. -/
theorem start_success (s : State) (tracks : Nat)
    (hStream : s.stream = none) (hPending : s.cameraPending = []) :
    (step s .startClicked).cameraRequests = s.cameraRequests + 1 ∧
    (step s .startClicked).cameraPending = [s.cameraRequests + 1] ∧
    (run s [.startClicked, .cameraGranted (s.cameraRequests + 1) tracks]).cameraRequests
      = s.cameraRequests + 1 ∧
    (run s [.startClicked, .cameraGranted (s.cameraRequests + 1) tracks]).cameraPending = [] ∧
    (run s [.startClicked, .cameraGranted (s.cameraRequests + 1) tracks]).streams
      = s.streams ++ [⟨List.replicate tracks ⟨true⟩⟩] ∧
    (run s [.startClicked, .cameraGranted (s.cameraRequests + 1) tracks]).stream
      = some s.streams.length ∧
    (run s [.startClicked, .cameraGranted (s.cameraRequests + 1) tracks]).videoSrcObject
      = some s.streams.length ∧
    (run s [.startClicked, .cameraGranted (s.cameraRequests + 1) tracks]).startDisabled = true ∧
    (run s [.startClicked, .cameraGranted (s.cameraRequests + 1) tracks]).stopDisabled = false ∧
    (run s [.startClicked, .cameraGranted (s.cameraRequests + 1) tracks]).emotionText
      = "Đang nhận diện..." ∧
    (run s [.startClicked, .cameraGranted (s.cameraRequests + 1) tracks]).intervalId
      = some (s.timersCreated + 1) ∧
    (run s [.startClicked, .cameraGranted (s.cameraRequests + 1) tracks]).timers
      = s.timers ++ [⟨s.timersCreated + 1, .captureAndSend, 5000⟩] ∧
    activeTimers (run s [.startClicked, .cameraGranted (s.cameraRequests + 1) tracks])
      = activeTimers s + 1 ∧
    (s.timers = [] →
      (run s [.startClicked, .cameraGranted (s.cameraRequests + 1) tracks]).timers
        = [⟨s.timersCreated + 1, .captureAndSend, 5000⟩]) := by
  simp +contextual [run, step, settle, startBtn_onclick, startBtn_onclick_resolved, getUserMedia,
    setInterval, activeTimers, hStream, hPending, pure, Except.pure]

/-- Instance of `start_success` at the page as loaded, granted a stream with
one track. -/
theorem start_success_witness :
    (run initial [.startClicked, .cameraGranted 1 1]).stream = some 0 ∧
    (run initial [.startClicked, .cameraGranted 1 1]).timers = [⟨1, .captureAndSend, 5000⟩] :=
  have h := start_success initial 1 rfl rfl
  ⟨h.2.2.2.2.2.1, h.2.2.2.2.2.2.2.2.2.2.2.2.2 rfl⟩

/-- C1 fails on the code: after two overlapping start actions, both grants and
a stop action, the page is idle (both handles null, no camera request pending,
start enabled) but the trigger of the first start is still registered.  A
start action from there issues exactly one camera request and, once granted,
sets the handles, the preview, the controls and the status text as claimed,
yet leaves two repeating triggers registered, with handles 1 and 3. -/
theorem start_after_leak_two_triggers :
    (run initial (doubleStart ++ [.stopClicked])).stream = none ∧
    (run initial (doubleStart ++ [.stopClicked])).intervalId = none ∧
    (run initial (doubleStart ++ [.stopClicked])).cameraPending = [] ∧
    (run initial (doubleStart ++ [.stopClicked])).startDisabled = false ∧
    (run initial (doubleStart ++ [.stopClicked])).cameraRequests = 2 ∧
    (run initial (doubleStart ++ [.stopClicked, .startClicked])).cameraRequests = 3 ∧
    (run initial (doubleStart ++ [.stopClicked, .startClicked, .cameraGranted 3 1])).stream
      = some 2 ∧
    (run initial (doubleStart ++ [.stopClicked, .startClicked, .cameraGranted 3 1])).videoSrcObject
      = some 2 ∧
    (run initial (doubleStart ++ [.stopClicked, .startClicked, .cameraGranted 3 1])).startDisabled
      = true ∧
    (run initial (doubleStart ++ [.stopClicked, .startClicked, .cameraGranted 3 1])).stopDisabled
      = false ∧
    (run initial (doubleStart ++ [.stopClicked, .startClicked, .cameraGranted 3 1])).emotionText
      = "Đang nhận diện..." ∧
    (run initial (doubleStart ++ [.stopClicked, .startClicked, .cameraGranted 3 1])).intervalId
      = some 3 ∧
    (run initial (doubleStart ++ [.stopClicked, .startClicked, .cameraGranted 3 1])).timers
      = [⟨1, .captureAndSend, 5000⟩, ⟨3, .captureAndSend, 5000⟩] ∧
    activeTimers (run initial (doubleStart ++ [.stopClicked, .startClicked, .cameraGranted 3 1]))
      = 2 := by
  decide

/-- C2: when the stream handle is set, a start action returns at its guard:
no camera request is issued and the whole state is unchanged. -/
theorem start_when_active (s : State) (ref : Nat) (hStream : s.stream = some ref) :
    startBtn_onclick s = .ok s ∧
    step s .startClicked = s ∧
    (step s .startClicked).cameraRequests = s.cameraRequests ∧
    (step s .startClicked).cameraPending = s.cameraPending := by
  simp [step, settle, startBtn_onclick, hStream, pure, Except.pure]

/-- Witness of C2 at the active state reached by one successful start. -/
theorem start_when_active_witness :
    step (run initial [.startClicked, .cameraGranted 1 1]) .startClicked
      = run initial [.startClicked, .cameraGranted 1 1] :=
  (start_when_active (run initial [.startClicked, .cameraGranted 1 1]) 0 rfl).2.1

/-- C8: from an idle state, a start action whose camera request rejects with
`err` leaves both handles null, leaves both controls, the preview and the
status text as they were (so an enabled start control stays enabled), acquires
nothing, and produces exactly one notice, the prefix literal followed by `err`. -/
theorem start_failure (s : State) (err : String)
    (hStream : s.stream = none) (hTimer : s.intervalId = none) :
    (run s [.startClicked, .cameraDenied (s.cameraRequests + 1) err]).stream = none ∧
    (run s [.startClicked, .cameraDenied (s.cameraRequests + 1) err]).intervalId = none ∧
    (run s [.startClicked, .cameraDenied (s.cameraRequests + 1) err]).startDisabled
      = s.startDisabled ∧
    (s.startDisabled = false →
      (run s [.startClicked, .cameraDenied (s.cameraRequests + 1) err]).startDisabled = false) ∧
    (run s [.startClicked, .cameraDenied (s.cameraRequests + 1) err]).stopDisabled
      = s.stopDisabled ∧
    (run s [.startClicked, .cameraDenied (s.cameraRequests + 1) err]).videoSrcObject
      = s.videoSrcObject ∧
    (run s [.startClicked, .cameraDenied (s.cameraRequests + 1) err]).emotionText
      = s.emotionText ∧
    (run s [.startClicked, .cameraDenied (s.cameraRequests + 1) err]).streams = s.streams ∧
    (run s [.startClicked, .cameraDenied (s.cameraRequests + 1) err]).timers = s.timers ∧
    (run s [.startClicked, .cameraDenied (s.cameraRequests + 1) err]).cameraRequests
      = s.cameraRequests + 1 ∧
    (run s [.startClicked, .cameraDenied (s.cameraRequests + 1) err]).alerts
      = s.alerts ++ ["Không thể truy cập camera: " ++ err] := by
  simp [run, step, settle, startBtn_onclick, startBtn_onclick_rejected, getUserMedia,
    alert, hStream, hTimer, pure, Except.pure]

/-- Witness of C8 at the page as loaded, with a permission error. -/
theorem start_failure_witness :
    (run initial [.startClicked, .cameraDenied 1 "NotAllowedError"]).alerts
      = ["Không thể truy cập camera: " ++ "NotAllowedError"] ∧
    (run initial [.startClicked, .cameraDenied 1 "NotAllowedError"]).startDisabled = false :=
  have h := start_failure initial "NotAllowedError" rfl rfl
  ⟨h.2.2.2.2.2.2.2.2.2.2, h.2.2.2.1 rfl⟩

/-! ## Stop -/

/-- What a stop action does in general: in a state whose stream handle refers
to a granted stream and whose timer handle is a handle returned by
`setInterval`, a stop action raises no error and removes the trigger of that
handle, and no other, from the registry; the registry is empty afterwards when
it held no trigger with another handle.  It ends every track of the stream
behind the stream handle, sets both handles to null, clears the preview,
enables start, disables stop and sets the status text to the "not yet
analyzing" literal; while the stream handle stays null a timer event changes
nothing, because `captureAndSend` returns at its guard. -/
theorem stop_active (s : State) (ref id : Nat) (m : MediaStream)
    (hStream : s.stream = some ref) (hTimer : s.intervalId = some id) (hId : id ≠ 0)
    (hHeap : s.streams[ref]? = some m) :
    stopBtn_onclick s = .ok (step s .stopClicked) ∧
    (step s .stopClicked).timers = s.timers.filter (fun t => t.id != id) ∧
    (∀ t ∈ (step s .stopClicked).timers, t.id ≠ id) ∧
    ((∀ t ∈ s.timers, t.id = id) → (step s .stopClicked).timers = []) ∧
    (∀ id' dataUrl,
      step (step s .stopClicked) (.timerFired id' dataUrl) = step s .stopClicked) ∧
    (step s .stopClicked).streams[ref]? = some ⟨m.tracks.map (fun _ => ⟨false⟩)⟩ ∧
    (∀ m', (step s .stopClicked).streams[ref]? = some m' → ∀ t ∈ m'.tracks, t.live = false) ∧
    (step s .stopClicked).stream = none ∧
    (step s .stopClicked).intervalId = none ∧
    (step s .stopClicked).videoSrcObject = none ∧
    (step s .stopClicked).startDisabled = false ∧
    (step s .stopClicked).stopDisabled = true ∧
    (step s .stopClicked).emotionText = "Chưa nhận diện" := by
  have hs : step s .stopClicked =
      { s with
        timers := s.timers.filter (fun t => t.id != id)
        streams := s.streams.modify (fun m => ⟨m.tracks.map (fun _ => ⟨false⟩)⟩) ref
        intervalId := none, stream := none, videoSrcObject := none
        startDisabled := false, stopDisabled := true, emotionText := "Chưa nhận diện" } := by
    simp [step, settle, stopBtn_onclick, clearInterval, stopTracks, hStream, hTimer, hId,
      pure, Except.pure]
  refine ⟨?_, ?_, ?_, ?_, ?_, ?_, ?_, ?_, ?_, ?_, ?_, ?_, ?_⟩
  · simp [step, settle, stopBtn_onclick, clearInterval, stopTracks, hStream, hTimer, hId,
      pure, Except.pure]
  · rw [hs]
  · rw [hs]
    intro t ht
    simpa using (List.mem_filter.mp ht).2
  · rw [hs]
    intro h
    show s.timers.filter (fun t => t.id != id) = []
    rw [List.filter_eq_nil_iff]
    intro a ha
    simp [h a ha]
  · intro id' dataUrl
    exact step_timerFired_no_stream _ id' dataUrl (by rw [hs])
  · rw [hs]
    simp [hHeap]
  · rw [hs]
    intro m' hm' t ht
    simp [hHeap] at hm'
    subst hm'
    simp at ht
    obtain ⟨_, _, rfl⟩ := ht
    rfl
  all_goals rw [hs]

/-- Instance of `stop_active` at the active state reached by one successful
start with a two-track stream. -/
theorem stop_active_witness :
    (step (run initial [.startClicked, .cameraGranted 1 2]) .stopClicked).timers = [] ∧
    (step (run initial [.startClicked, .cameraGranted 1 2]) .stopClicked).streams[0]?
      = some ⟨[⟨false⟩, ⟨false⟩]⟩ :=
  have h := stop_active (run initial [.startClicked, .cameraGranted 1 2]) 0 1
    ⟨[⟨true⟩, ⟨true⟩]⟩ rfl rfl (by decide) rfl
  ⟨h.2.1, h.2.2.2.2.2.1⟩

/-- C3 fails on the code: after two overlapping start actions and both grants
the stream handle and the timer handle are set (stream 1, trigger 2).  A stop
action cancels trigger 2 and ends the track of stream 1 only: trigger 1 stays
registered and the track of stream 0 stays live, so the callback keeps being
invoked after stop, and after the next successful start the old trigger and
the new one both send a frame. -/
theorem stop_leaves_first_trigger :
    (run initial doubleStart).stream = some 1 ∧
    (run initial doubleStart).intervalId = some 2 ∧
    (run initial doubleStart).timers
      = [⟨1, .captureAndSend, 5000⟩, ⟨2, .captureAndSend, 5000⟩] ∧
    (run initial (doubleStart ++ [.stopClicked])).timers = [⟨1, .captureAndSend, 5000⟩] ∧
    (run initial (doubleStart ++ [.stopClicked])).streams
      = [⟨[⟨true⟩]⟩, ⟨[⟨false⟩]⟩] ∧
    (run initial (doubleStart ++ [.stopClicked])).timers.find? (fun t => t.id == 1)
      = some ⟨1, .captureAndSend, 5000⟩ ∧
    (run initial (doubleStart ++
      [.stopClicked, .startClicked, .cameraGranted 3 1, .timerFired 1 "old"])).fetches
      = [⟨"/analyze", "POST", "application/json", "old"⟩] ∧
    (run initial (doubleStart ++
      [.stopClicked, .startClicked, .cameraGranted 3 1, .timerFired 1 "old",
        .timerFired 3 "new"])).fetches
      = [⟨"/analyze", "POST", "application/json", "old"⟩,
          ⟨"/analyze", "POST", "application/json", "new"⟩] := by
  decide

/-- C4 fails as stated: after the trace `lateAnswer` both handles are null and
the status text is "happy"; a stop action then overwrites the status text. -/
theorem stop_idle_overwrites_status :
    (run initial lateAnswer).stream = none ∧
    (run initial lateAnswer).intervalId = none ∧
    (run initial lateAnswer).emotionText = "happy" ∧
    (step (run initial lateAnswer) .stopClicked).emotionText = "Chưa nhận diện" ∧
    step (run initial lateAnswer) .stopClicked ≠ run initial lateAnswer := by
  decide

/-- C4 amended: in an idle state a stop action raises no error, keeps both
handles null, releases nothing, and writes the idle values to the preview, the
two controls and the status text; it changes no state exactly when these four
already hold the idle values. -/
theorem stop_idle (s : State) (hStream : s.stream = none) (hTimer : s.intervalId = none) :
    stopBtn_onclick s = .ok (step s .stopClicked) ∧
    step s .stopClicked =
      { s with
        videoSrcObject := none, startDisabled := false, stopDisabled := true
        emotionText := "Chưa nhận diện" } ∧
    (step s .stopClicked = s ↔
      s.videoSrcObject = none ∧ s.startDisabled = false ∧ s.stopDisabled = true ∧
        s.emotionText = "Chưa nhận diện") := by
  have hs : step s .stopClicked =
      { s with
        videoSrcObject := none, startDisabled := false, stopDisabled := true
        emotionText := "Chưa nhận diện" } := by
    cases s
    simp_all [step, settle, stopBtn_onclick, pure, Except.pure]
  refine ⟨?_, hs, ?_⟩
  · simp [step, settle, stopBtn_onclick, hStream, hTimer, pure, Except.pure]
  · rw [hs]
    constructor
    · intro h
      rw [← h]
      exact ⟨rfl, rfl, rfl, rfl⟩
    · rintro ⟨h1, h2, h3, h4⟩
      cases s
      simp_all

/-- Witness of C4 amended at the page as loaded, where a stop action changes
nothing. -/
theorem stop_idle_witness : step initial .stopClicked = initial :=
  (stop_idle initial rfl rfl).2.2.mpr ⟨rfl, rfl, rfl, rfl⟩

/-! ## Tick -/

/-- C5: when the answer of a tick is a JSON object whose `emotion` member is a
non-empty string `e`, the last segment of the tick raises no error and sets
the status text to `e`, in whatever state it resumes; in particular a tick that
runs from a state with a stream handle to its end leaves the status text `e`. -/
theorem tick_shows_emotion (s : State) (ref id : Nat) (dataUrl : String)
    (members : List (String × JSVal)) (e : String)
    (hStream : s.stream = some ref) (hTimer : ∃ t ∈ s.timers, t.id = id)
    (hEmotion : lookupMember "emotion" members = some (.str e)) (hNonEmpty : e ≠ "") :
    (∀ s' : State,
      captureAndSend_parsed s' (.ok (.object members)) = .ok { s' with emotionText := e }) ∧
    (run s [.timerFired id dataUrl, .fetchSettled (s.fetches.length + 1) (.ok ()),
      .jsonSettled (s.fetches.length + 1) (.ok (.object members))]).emotionText = e := by
  have hp : ∀ s' : State,
      captureAndSend_parsed s' (.ok (.object members)) = .ok { s' with emotionText := e } := by
    intro s'
    simp [captureAndSend_parsed, Body.getProp, hEmotion, JSVal.or, JSVal.truthy,
      JSVal.toDOMString, hNonEmpty, tryCatch, tryCatchThe, MonadExceptOf.tryCatch,
      Except.tryCatch, bind, Except.bind, pure, Except.pure]
  refine ⟨hp, ?_⟩
  simp [run, step_timerFired_registered s id dataUrl hTimer]
  simp [step, settle, captureAndSend, captureAndSend_fetched, fetch, hStream, hp,
    tryCatch, tryCatchThe, MonadExceptOf.tryCatch, Except.tryCatch, bind, Except.bind,
    pure, Except.pure]

/-- Witness of C5: the answer with `emotion` equal to "happy" gives the status
text "happy". -/
theorem tick_shows_emotion_witness :
    (run (run initial [.startClicked, .cameraGranted 1 1])
      [.timerFired 1 "data:image/jpeg;base64,AA==", .fetchSettled 1 (.ok ()),
        .jsonSettled 1 (.ok (.object [("emotion", .str "happy")]))]).emotionText = "happy" :=
  (tick_shows_emotion (run initial [.startClicked, .cameraGranted 1 1]) 0 1
    "data:image/jpeg;base64,AA==" [("emotion", .str "happy")] "happy" rfl
    ⟨⟨1, .captureAndSend, 5000⟩, by decide, rfl⟩ rfl (by decide)).2

/-- C6 fails as stated: the JSON text `null` is well formed and has no
`emotion` member, and a tick answered with it ends with the status text of a
connection error, because reading a property of `null` throws inside the `try`. -/
theorem tick_null_answer :
    captureAndSend_parsed (run initial [.startClicked, .cameraGranted 1 1]) (.ok .null)
      = .ok { run initial [.startClicked, .cameraGranted 1 1] with
          emotionText := "Lỗi kết nối" } ∧
    (run initial [.startClicked, .cameraGranted 1 1, .timerFired 1 "data:image/jpeg;base64,AA==",
      .fetchSettled 1 (.ok ()), .jsonSettled 1 (.ok .null)]).emotionText = "Lỗi kết nối" ∧
    (run initial [.startClicked, .cameraGranted 1 1, .timerFired 1 "data:image/jpeg;base64,AA==",
      .fetchSettled 1 (.ok ()), .jsonSettled 1 (.ok .null)]).emotionText
        ≠ "Không nhận diện được" :=
  ⟨rfl, by decide, by decide⟩

/-- C6 amended: when the answer of a tick is a JSON value other than `null`
in which the `emotion` member is missing or is the empty string, the last
segment of the tick raises no error and sets the status text to the "could not
be recognized" literal, in whatever state it resumes; in particular a tick that
runs from a state with a stream handle to its end leaves that status text. -/
theorem tick_no_emotion (s : State) (ref id : Nat) (dataUrl : String) (body : Body)
    (hStream : s.stream = some ref) (hTimer : ∃ t ∈ s.timers, t.id = id)
    (hBody : body ≠ .null)
    (hEmotion : ∀ members, body = .object members →
      lookupMember "emotion" members = none ∨ lookupMember "emotion" members = some (.str "")) :
    (∀ s' : State,
      captureAndSend_parsed s' (.ok body)
        = .ok { s' with emotionText := "Không nhận diện được" }) ∧
    (run s [.timerFired id dataUrl, .fetchSettled (s.fetches.length + 1) (.ok ()),
      .jsonSettled (s.fetches.length + 1) (.ok body)]).emotionText
        = "Không nhận diện được" := by
  have hp : ∀ s' : State,
      captureAndSend_parsed s' (.ok body)
        = .ok { s' with emotionText := "Không nhận diện được" } := by
    intro s'
    cases body with
    | null => exact absurd rfl hBody
    | other =>
      simp [captureAndSend_parsed, Body.getProp, JSVal.or, JSVal.truthy,
        JSVal.toDOMString, tryCatch, tryCatchThe, MonadExceptOf.tryCatch,
        Except.tryCatch, bind, Except.bind, pure, Except.pure]
    | object members =>
      rcases hEmotion members rfl with h | h <;>
      simp [captureAndSend_parsed, Body.getProp, h, JSVal.or, JSVal.truthy,
        JSVal.toDOMString, tryCatch, tryCatchThe, MonadExceptOf.tryCatch,
        Except.tryCatch, bind, Except.bind, pure, Except.pure]
  refine ⟨hp, ?_⟩
  simp [run, step_timerFired_registered s id dataUrl hTimer]
  simp [step, settle, captureAndSend, captureAndSend_fetched, fetch, hStream, hp,
    tryCatch, tryCatchThe, MonadExceptOf.tryCatch, Except.tryCatch, bind, Except.bind,
    pure, Except.pure]

/-- Witness of C6 amended: an answer whose `emotion` member is the empty
string, at the active state reached by one successful start. -/
theorem tick_no_emotion_witness :
    (run (run initial [.startClicked, .cameraGranted 1 1])
      [.timerFired 1 "data:image/jpeg;base64,AA==", .fetchSettled 1 (.ok ()),
        .jsonSettled 1 (.ok (.object [("emotion", .str "")]))]).emotionText
      = "Không nhận diện được" :=
  (tick_no_emotion (run initial [.startClicked, .cameraGranted 1 1]) 0 1
    "data:image/jpeg;base64,AA==" (.object [("emotion", .str "")]) rfl
    ⟨⟨1, .captureAndSend, 5000⟩, by decide, rfl⟩ (by decide)
    (fun members h => by
      cases h
      exact Or.inr rfl)).2

/-- C7: when the request of a tick fails, either because `fetch` rejects or
because the body does not parse as JSON, the segment that resumes raises no
error and only sets the status text to the "connection error" literal, in
whatever state it resumes; a tick that runs from a state with a stream handle
and a registered timer to its end leaves that status text and leaves the stream
handle, the timer handle, both controls, the preview, the timer registry and
the streams as they were. -/
theorem tick_failure (s : State) (ref id : Nat) (dataUrl : String) (err : JSError)
    (hStream : s.stream = some ref) (hTimer : ∃ t ∈ s.timers, t.id = id) :
    (∀ s' : State, captureAndSend_fetched s' (.error err)
      = .ok { s' with emotionText := "Lỗi kết nối" }) ∧
    (∀ s' : State, captureAndSend_parsed s' (.error err)
      = .ok { s' with emotionText := "Lỗi kết nối" }) ∧
    (∃ s', captureAndSend s dataUrl = .ok s') ∧
    (∀ after : State,
      after = run s [.timerFired id dataUrl, .fetchSettled (s.fetches.length + 1) (.error err)] ∨
      after = run s [.timerFired id dataUrl, .fetchSettled (s.fetches.length + 1) (.ok ()),
        .jsonSettled (s.fetches.length + 1) (.error err)] →
      after.emotionText = "Lỗi kết nối" ∧
      after.stream = s.stream ∧ after.intervalId = s.intervalId ∧
      after.startDisabled = s.startDisabled ∧ after.stopDisabled = s.stopDisabled ∧
      after.videoSrcObject = s.videoSrcObject ∧
      after.timers = s.timers ∧ after.streams = s.streams) := by
  have hf : ∀ s' : State, captureAndSend_fetched s' (.error err)
      = .ok { s' with emotionText := "Lỗi kết nối" } := by
    intro s'
    simp [captureAndSend_fetched, tryCatch, tryCatchThe, MonadExceptOf.tryCatch,
      Except.tryCatch, bind, Except.bind, pure, Except.pure]
  have hp : ∀ s' : State, captureAndSend_parsed s' (.error err)
      = .ok { s' with emotionText := "Lỗi kết nối" } := by
    intro s'
    simp [captureAndSend_parsed, tryCatch, tryCatchThe, MonadExceptOf.tryCatch,
      Except.tryCatch, bind, Except.bind, pure, Except.pure]
  refine ⟨hf, hp, ?_, ?_⟩
  · simp [captureAndSend, hStream, pure, Except.pure]
  · rintro after (h | h) <;> subst h <;>
    simp [run, step_timerFired_registered s id dataUrl hTimer] <;>
    simp [step, settle, captureAndSend, captureAndSend_fetched, fetch, hStream, hp,
      tryCatch, tryCatchThe, MonadExceptOf.tryCatch, Except.tryCatch, bind, Except.bind,
      pure, Except.pure]

/-- Witness of C7: a rejected request at the active state reached by one
successful start. -/
theorem tick_failure_witness :
    (run (run initial [.startClicked, .cameraGranted 1 1])
      [.timerFired 1 "data:image/jpeg;base64,AA==",
        .fetchSettled 1 (.error (.rejected "Failed to fetch"))]).emotionText = "Lỗi kết nối" ∧
    (run (run initial [.startClicked, .cameraGranted 1 1])
      [.timerFired 1 "data:image/jpeg;base64,AA==",
        .fetchSettled 1 (.error (.rejected "Failed to fetch"))]).stream = some 0 :=
  have h := (tick_failure (run initial [.startClicked, .cameraGranted 1 1]) 0 1
    "data:image/jpeg;base64,AA==" (.rejected "Failed to fetch") rfl
    ⟨⟨1, .captureAndSend, 5000⟩, by decide, rfl⟩).2.2.2 _ (Or.inl rfl)
  ⟨h.1, h.2.1⟩

/-! ## Sessions -/

/-- C9 fails on the code: the start control is still enabled and the stream
handle still null after the first start action, so a second start action
issues a second camera request; once both are granted two streams have live
tracks and two repeating triggers are registered, and a stop action releases
only the second stream and the second trigger. -/
theorem double_start_two_sessions :
    (run initial [.startClicked]).startDisabled = false ∧
    (run initial [.startClicked]).stream = none ∧
    (run initial [.startClicked, .startClicked]).cameraRequests = 2 ∧
    liveStreams (run initial doubleStart) = 2 ∧
    activeTimers (run initial doubleStart) = 2 ∧
    liveStreams (run initial (doubleStart ++ [.stopClicked])) = 1 ∧
    activeTimers (run initial (doubleStart ++ [.stopClicked])) = 1 := by
  decide

/-- C10: from any state with both handles null, start enabled and stop
disabled, every sequence of start actions, stop actions, camera grants and
denials, timer events and answers leads to a state in which start is disabled
exactly when the stream handle is set, stop is enabled exactly when the stream
handle is set, and the timer handle is set exactly when the stream handle is. -/
theorem controls_agree (s0 : State) (events : List Event)
    (hStream : s0.stream = none) (hTimer : s0.intervalId = none)
    (hStart : s0.startDisabled = false) (hStop : s0.stopDisabled = true) :
    ((run s0 events).startDisabled = true ↔ (run s0 events).stream ≠ none) ∧
    ((run s0 events).stopDisabled = false ↔ (run s0 events).stream ≠ none) ∧
    ((run s0 events).intervalId ≠ none ↔ (run s0 events).stream ≠ none) :=
  run_consistent events s0 (by simp [Consistent, hStream, hTimer, hStart, hStop])

/-- Witness of C10 at the page as loaded, along the trace with two start
actions before the first grant. -/
theorem controls_agree_witness :
    ((run initial doubleStart).startDisabled = true ↔ (run initial doubleStart).stream ≠ none) ∧
    ((run initial doubleStart).stopDisabled = false ↔ (run initial doubleStart).stream ≠ none) ∧
    ((run initial doubleStart).intervalId ≠ none ↔ (run initial doubleStart).stream ≠ none) :=
  controls_agree initial doubleStart rfl rfl rfl rfl

end Camera
